import Mathlib

/-!
Shallow embedding of `src/lib/plugins/outbound-link-tracker.js`
(the `OutboundLinkTracker` analytics.js plugin) and proofs about it.

The DOM, `window.setTimeout` / `clearTimeout`, `document.location`, event
delegation and the analytics tracker are modelled explicitly:

* a `Link` is the anchor element the delegated handler receives;
* a `DomEvent` carries the fields the handler reads (`type`, modifier keys,
  `which`);
* `Sys` is the single-threaded runtime state relevant to the plugin: the
  instance field `this.fallbackTimeout`, the closure environments allocated by
  `createHitCallback` (each holding the captured `hitCallbackHasRun` flag and
  link), the set of pending timers, and the sequence of navigations performed
  by `document.location = link` assignments;
* the external utility `createFieldsObj` (from `lib/utilities.js`, which is
  not part of the sources here) is passed in as an opaque composition
  function that may throw or veto, returning `none` in that case;
* JavaScript exception propagation out of `handleLinkInteractions` is
  modelled by the `threw` flag of `HandleResult`: effects performed before
  the throwing call are retained, the send is not performed.
-/

namespace OutboundLink

/-- Result of the cross-browser URL parser (`dom-utils/lib/parse-url`): the
fields read by the plugin. `protocol` keeps the trailing colon, as in the DOM
(`"https:"`). -/
structure ParsedUrl where
  hostname : String
  protocol : String
deriving Repr, DecidableEq

/-- The anchor element the delegated handler receives. `target` is the DOM
`target` property; the empty string models an absent/empty attribute (falsy in
JavaScript). `attrs` are the element attributes, for attribute-field
scanning. -/
structure Link where
  href : String
  target : String
  attrs : List (String × String)
deriving Repr, DecidableEq

/-- The fields of the DOM interaction event read by the handler. -/
structure DomEvent where
  type : String
  ctrlKey : Bool
  shiftKey : Bool
  metaKey : Bool
  which : Nat
deriving Repr, DecidableEq

/-- A JavaScript plain object used as an analytics field map, as an
association list; lookup takes the first matching key. -/
abbrev Fields := List (String × String)

/-- The `defaultFields` object built by `handleLinkInteractions` (lines 77-82
of the source), plus the `hitCallback` property attached in the wait fallback
branch (line 106).  The callback value is the index of its closure in
`Sys.closures` (`none` when no callback was attached). -/
structure DefaultFields where
  transport : String
  eventCategory : String
  eventAction : String
  eventLabel : String
  hitCallback : Option Nat
deriving Repr, DecidableEq

/-- Ambient browser environment read by the handler: truthiness of
`navigator.sendBeacon`, the current `location.hostname`, and the URL parser
passed to the outbound predicate. -/
structure Env where
  sendBeacon : Bool
  locationHostname : String
  parseUrl : String → ParsedUrl

/-- The recognized configuration options (constructor lines 40-49).
`shouldTrack` is the configurable `opts.shouldTrackOutboundLink` predicate.
`hitFilter` is an opaque identifier handed to the field-composition utility
(`none` models the default `null`).  `fallback` is `none` when the fallback is
disabled (a falsy configured value). -/
structure Opts where
  events : List String
  linkSelector : String
  shouldTrack : Link → (String → ParsedUrl) → Bool
  fieldsObj : Fields
  attributePrefix : String
  hitFilter : Option Nat
  fallback : Option String
  fallbackWait : Nat

/-- A closure allocated by `createHitCallback(link)`: the captured link
(`document.location = link` navigates to its href) and the captured mutable
`hitCallbackHasRun` guard. -/
structure Callback where
  link : String
  hasRun : Bool
deriving Repr, DecidableEq

/-- A pending `setTimeout` timer: its id, absolute fire time in milliseconds,
and the index of the closure its callback invokes. -/
structure Timer where
  id : Nat
  fireAt : Nat
  cb : Nat
deriving Repr, DecidableEq

/-- The runtime state: the instance field `this.fallbackTimeout` (the id of
the most recently created fallback timer), the allocated hit-callback
closures, the pending timers, a fresh-timer-id counter, the sequence of
`document.location` navigations performed so far, and the current time. -/
structure Sys where
  fallbackTimeout : Option Nat
  closures : List Callback
  timers : List Timer
  nextTimerId : Nat
  navigations : List String
  now : Nat
deriving Repr, DecidableEq

/-- The initial runtime state: nothing allocated, nothing pending. -/
def Sys.init : Sys :=
  { fallbackTimeout := none, closures := [], timers := [], nextTimerId := 0,
    navigations := [], now := 0 }

/-- Model of `Object.assign({}, a, b)`: properties of `b` override properties
of `a`.  Since `Fields` lookup takes the first match, the overriding source is
prepended. -/
def assignFields (a b : Fields) : Fields := b ++ a

/-- Modelled from the spec: `getAttributeFields` lives in `lib/utilities.js`,
which is not among the sources here.  Spec section 4.2 step 3: fields derived
from the link's attributes matching `attributePrefix`; the attribute name with
the prefix stripped becomes the field name and the attribute value the field
value. -/
def getAttributeFields (link : Link) (pfx : String) : Fields :=
  (link.attrs.filter (fun p => p.1.startsWith pfx)).map
    (fun p => (p.1.drop pfx.length, p.2))

/-- Case-insensitive whole-string match of the regex `^_(self|parent|top)$`
from line 87 of the source. -/
def isSelfParentTop (t : String) : Bool :=
  t.toLower == "_self" || t.toLower == "_parent" || t.toLower == "_top"

/-- Lines 87-88: `link.target && !link.target.match(/^_(self|parent|top)$/i)
? link.target : false`.  `none` models the `false` branch (same-tab
navigation). -/
def declaredTarget (link : Link) : Option String :=
  if link.target != "" && !isSelfParentTop link.target then some link.target
  else none

/-- The navigation target after the modifier-key override of lines 90-93:
ctrl/shift/meta clicks and middle-button clicks (`event.which == 2`) behave as
`_blank`. -/
def computedTarget (event : DomEvent) (link : Link) : Option String :=
  if event.ctrlKey || event.shiftKey || event.metaKey || event.which == 2 then
    some "_blank"
  else declaredTarget link

/-- `OutboundLinkTracker.prototype.shouldTrackOutboundLink` (lines 125-131):
true when the parsed hostname differs from `location.hostname` and the first
four characters of the parsed protocol are `http`
(`url.protocol.slice(0, 4) == 'http'`). -/
def shouldTrackOutboundLink (link : Link) (parseUrl : String → ParsedUrl)
    (locationHostname : String) : Bool :=
  let url := parseUrl link.href
  url.hostname != locationHostname && url.protocol.take 4 == "http"

/-- Translated from the spec's words, for comparison with the source
predicate: return true iff the hostname differs from the current page's
hostname and the scheme is http or https. -/
def shouldTrackOutboundLinkSpec (link : Link) (parseUrl : String → ParsedUrl)
    (locationHostname : String) : Bool :=
  let url := parseUrl link.href
  url.hostname != locationHostname &&
    (url.protocol == "http:" || url.protocol == "https:")

/-- `window.clearTimeout(tid)`: remove the pending timer with the given id;
a no-op when the id is `none` (`undefined`) or the timer already fired. -/
def clearTimeout (s : Sys) (tid : Option Nat) : Sys :=
  { s with timers := s.timers.filter (fun t => some t.id ≠ tid) }

/-- `window.setTimeout(cb, delay)`: schedule the closure at index `cb` to be
invoked `delay` milliseconds from now; returns the new state and the fresh
timer id. -/
def setTimeout (s : Sys) (cb : Nat) (delay : Nat) : Sys × Nat :=
  ({ s with
      timers := s.timers ++ [⟨s.nextTimerId, s.now + delay, cb⟩],
      nextTimerId := s.nextTimerId + 1 }, s.nextTimerId)

/-- `createHitCallback(link)` (lines 149-160): allocate a fresh closure with
`hitCallbackHasRun = false` capturing the link; returns the new state and the
closure index (the JavaScript function value is modelled by `invokeCallback`
at that index). -/
def createHitCallback (s : Sys) (linkHref : String) : Sys × Nat :=
  ({ s with closures := s.closures ++ [⟨linkHref, false⟩] }, s.closures.length)

/-- One invocation of the function returned by `createHitCallback` (lines
152-159): if the captured `hitCallbackHasRun` guard is set, return without
effect; otherwise clear the timer whose id is the current instance field
`this.fallbackTimeout`, set the guard, and perform
`document.location = link`. -/
def invokeCallback (s : Sys) (i : Nat) : Sys :=
  match s.closures[i]? with
  | none => s
  | some cb =>
    if cb.hasRun then s
    else
      let s1 := clearTimeout s s.fallbackTimeout
      { s1 with
          closures := s1.closures.set i { cb with hasRun := true },
          navigations := s1.navigations ++ [cb.link] }

/-- The browser firing the pending timer with id `tid`: the timer is removed
from the pending set (so clearing itself afterwards is a no-op), time advances
to its fire time, and its callback's closure is invoked.  A no-op when no such
timer is pending (it was cleared). -/
def fireTimer (s : Sys) (tid : Nat) : Sys :=
  match s.timers.find? (fun t => t.id == tid) with
  | none => s
  | some t =>
    invokeCallback
      { s with
          timers := s.timers.filter (fun u => u.id ≠ tid),
          now := max s.now t.fireAt }
      t.cb

/-- The type of the external `createFieldsObj` utility (line 111): composes
the default fields with the user fields, subject to the configured hit filter
and the link as filter context; `none` models a throwing or vetoing
composition. -/
abbrev ComposeFn := DefaultFields → Fields → Option Nat → Link → Option Fields

/-- The per-call observable effects of `handleLinkInteractions`:
whether `event.preventDefault()` was called, the final value of the link's
`target` property (mutated by the `_blank` fallback), the closure index of the
hit callback created and attached to the outgoing fields (if any), the delay
of the fallback timer started (if any), the single `tracker.send` call
performed (hit type and composed fields, if any), and whether the call threw
(a throwing/vetoing `createFieldsObj` propagates). -/
structure HandleResult where
  preventedDefault : Bool
  linkTarget : String
  hitCallbackAttached : Option Nat
  timerDelay : Option Nat
  sent : Option (String × Fields)
  threw : Bool
deriving Repr, DecidableEq

/-- The effect record of a call that did nothing (the `shouldTrack` predicate
returned false, or no delegate fired). -/
def HandleResult.none (link : Link) : HandleResult :=
  { preventedDefault := false, linkTarget := link.target,
    hitCallbackAttached := Option.none, timerDelay := Option.none,
    sent := Option.none, threw := false }

/-- `OutboundLinkTracker.prototype.handleLinkInteractions` (lines 73-114),
as a transformer of the runtime state returning the per-call effects.
Control flow follows the source: the outbound predicate gates everything; the
fallback block runs only when `navigator.sendBeacon` is falsy and a fallback
is configured, choosing `_blank` target rewriting or, for `"wait"` with no
computed target, preventDefault plus hit callback plus timer (the timer id is
stored in the instance field `this.fallbackTimeout`, overwriting any previous
value without clearing the previous timer); finally `tracker.send('event',
createFieldsObj(...))` — when composition throws, the earlier effects stand
and the send does not happen. -/
def handleLinkInteractions (env : Env) (opts : Opts) (cfo : ComposeFn)
    (s : Sys) (event : DomEvent) (link : Link) : Sys × HandleResult :=
  if opts.shouldTrack link env.parseUrl then
    let userFields := assignFields opts.fieldsObj
      (getAttributeFields link opts.attributePrefix)
    let target := computedTarget event link
    let fallbackActive := !env.sendBeacon && opts.fallback.isSome
    let engageBlank := fallbackActive && (opts.fallback == some "_blank")
    let engageWait :=
      fallbackActive && (opts.fallback == some "wait") && target.isNone
    let linkTargetAfter := if engageBlank then "_blank" else link.target
    let stateCb : Sys × Option Nat × Option Nat :=
      if engageWait then
        let (s1, ci) := createHitCallback s link.href
        let (s2, tid) := setTimeout s1 ci opts.fallbackWait
        ({ s2 with fallbackTimeout := some tid }, some ci,
          some opts.fallbackWait)
      else (s, none, none)
    let s' := stateCb.1
    let cbIdx := stateCb.2.1
    let timerDelay := stateCb.2.2
    let defaultFields : DefaultFields :=
      { transport := "beacon", eventCategory := "Outbound Link",
        eventAction := event.type, eventLabel := link.href,
        hitCallback := cbIdx }
    let composed := cfo defaultFields userFields opts.hitFilter link
    (s', { preventedDefault := engageWait, linkTarget := linkTargetAfter,
           hitCallbackAttached := cbIdx, timerDelay := timerDelay,
           sent := composed.map (fun fields => ("event", fields)),
           threw := composed.isNone })
  else (s, HandleResult.none link)

/-- The runtime state after a `handleLinkInteractions` call. -/
def handleSt (env : Env) (opts : Opts) (cfo : ComposeFn) (s : Sys)
    (event : DomEvent) (link : Link) : Sys :=
  (handleLinkInteractions env opts cfo s event link).1

/-- The per-call effects of a `handleLinkInteractions` call. -/
def handleEff (env : Env) (opts : Opts) (cfo : ComposeFn) (s : Sys)
    (event : DomEvent) (link : Link) : HandleResult :=
  (handleLinkInteractions env opts cfo s event link).2

/-- A delegated listener created at construction (line 59): the event name it
listens for and whether `destroy()` has been called on it. -/
structure Delegate where
  eventName : String
  destroyed : Bool
deriving Repr, DecidableEq

/-- The delegate map built by the constructor (lines 57-61): one live
delegated listener per configured event name. -/
def mkDelegates (events : List String) : List Delegate :=
  events.map (fun e => ⟨e, false⟩)

/-- The instance fields assigned by a completed (supported) construction. -/
structure InstanceFields where
  optsEvents : List String
  optsLinkSelector : String
  delegates : List Delegate
deriving Repr, DecidableEq

/-- An `OutboundLinkTracker` object.  `fields = none` models an instance
whose constructor returned at the feature-detect (line 38) before `this.opts`,
`this.tracker` and `this.delegates` were assigned. -/
structure TrackerInstance where
  fields : Option InstanceFields
deriving Repr, DecidableEq

/-- A thrown JavaScript error. -/
inductive JsError where
  | typeError : String → JsError
deriving Repr, DecidableEq

/-- `new OutboundLinkTracker(tracker, opts)` (lines 33-62): when
`window.addEventListener` is absent the constructor returns immediately and no
instance fields are assigned; otherwise one delegated listener is registered
per configured event name. -/
def outboundLinkTrackerNew (supportsAddEventListener : Bool)
    (events : List String) (linkSelector : String) : TrackerInstance :=
  if supportsAddEventListener then
    { fields := some
        { optsEvents := events, optsLinkSelector := linkSelector,
          delegates := mkDelegates events } }
  else { fields := none }

/-- `OutboundLinkTracker.prototype.remove` (lines 137-141): destroy every
delegate in `this.delegates`.  On an instance whose constructor bailed out,
`Object.keys(this.delegates)` dereferences `undefined` and throws a
`TypeError`. -/
def TrackerInstance.remove (inst : TrackerInstance) :
    Except JsError TrackerInstance :=
  match inst.fields with
  | none => .error (.typeError "Cannot convert undefined or null to object")
  | some f => .ok
      { fields := some
          { f with delegates :=
              f.delegates.map (fun d => { d with destroyed := true }) } }

/-- Whether a live (not destroyed) delegated listener for the given event name
is attached on the instance. -/
def delegateActive (inst : TrackerInstance) (eventName : String) : Bool :=
  match inst.fields with
  | none => false
  | some f => f.delegates.any (fun d => d.eventName == eventName && !d.destroyed)

/-- Event dispatch through the delegation utility: an interaction event on an
element matching the link selector reaches `handleLinkInteractions` iff a live
delegated listener for the event's type is attached. -/
def dispatch (inst : TrackerInstance) (env : Env) (opts : Opts)
    (cfo : ComposeFn) (s : Sys) (event : DomEvent) (link : Link) :
    Sys × HandleResult :=
  if delegateActive inst event.type then
    handleLinkInteractions env opts cfo s event link
  else (s, HandleResult.none link)

/-! Concrete fixtures used by witnesses and counterexamples. -/

/-- A concrete browser environment: no `navigator.sendBeacon`, current page
hostname `example.com`, and a URL parser recognizing two outbound hrefs. -/
def envEx : Env :=
  { sendBeacon := false, locationHostname := "example.com",
    parseUrl := fun h =>
      if h == "http://a.com/1" then ⟨"a.com", "http:"⟩
      else if h == "http://b.com/2" then ⟨"b.com", "http:"⟩
      else ⟨"example.com", "https:"⟩ }

/-- The default options with the fallback configured to `"wait"`. -/
def optsWait : Opts :=
  { events := ["click"], linkSelector := "a",
    shouldTrack := fun l p => shouldTrackOutboundLink l p "example.com",
    fieldsObj := [], attributePrefix := "ga-", hitFilter := none,
    fallback := some "wait", fallbackWait := 500 }

/-- A concrete field-composition function that merges the defaults with the
user fields and never throws. -/
def cfoEx : ComposeFn := fun d u _ _ =>
  some (assignFields
    [("transport", d.transport), ("eventCategory", d.eventCategory),
     ("eventAction", d.eventAction), ("eventLabel", d.eventLabel)] u)

/-- A field-composition function that always throws (or vetoes). -/
def cfoNone : ComposeFn := fun _ _ _ _ => none

/-- A plain left-button click with no modifier keys. -/
def clickEv : DomEvent := ⟨"click", false, false, false, 1⟩

/-- An outbound link with no declared target. -/
def linkA : Link := ⟨"http://a.com/1", "", []⟩

/-- A second outbound link with no declared target. -/
def linkB : Link := ⟨"http://b.com/2", "", []⟩

/-- A link resolving to the current page's hostname. -/
def linkSame : Link := ⟨"https://example.com/page", "", []⟩

/-- Runtime state after the first qualifying click on `linkA` from the
initial state. -/
def c3Run1 : Sys := handleSt envEx optsWait cfoEx Sys.init clickEv linkA

/-- Runtime state after a second qualifying click on `linkB` one millisecond
later, while the first click's fallback timer is still pending. -/
def c3Run2 : Sys :=
  handleSt envEx optsWait cfoEx { c3Run1 with now := 1 } clickEv linkB

/-- Runtime state after the first click's fallback timer (id 0) fires. -/
def c3Final : Sys := fireTimer c3Run2 0

/-! Theorems.  Helper lemmas (shared across claims) come first. -/

/-- Helper: the handler with a false `shouldTrack` predicate is a no-op. -/
theorem handle_of_not_tracked {env : Env} {opts : Opts} {cfo : ComposeFn}
    {s : Sys} {event : DomEvent} {link : Link}
    (h : opts.shouldTrack link env.parseUrl = false) :
    handleLinkInteractions env opts cfo s event link
      = (s, HandleResult.none link) := by
  simp [handleLinkInteractions, h]

/-- Helper: closed form of the handler when the wait fallback is engaged
(tracked, no beacon, fallback `"wait"`, no computed target). -/
theorem handle_of_wait {env : Env} {opts : Opts} {cfo : ComposeFn} {s : Sys}
    {event : DomEvent} {link : Link}
    (h1 : opts.shouldTrack link env.parseUrl = true)
    (h2 : env.sendBeacon = false)
    (h3 : opts.fallback = some "wait")
    (h4 : computedTarget event link = none) :
    handleLinkInteractions env opts cfo s event link =
      ({ s with
          fallbackTimeout := some s.nextTimerId,
          closures := s.closures ++ [⟨link.href, false⟩],
          timers := s.timers
            ++ [⟨s.nextTimerId, s.now + opts.fallbackWait, s.closures.length⟩],
          nextTimerId := s.nextTimerId + 1 },
       { preventedDefault := true, linkTarget := link.target,
         hitCallbackAttached := some s.closures.length,
         timerDelay := some opts.fallbackWait,
         sent := (cfo
            { transport := "beacon", eventCategory := "Outbound Link",
              eventAction := event.type, eventLabel := link.href,
              hitCallback := some s.closures.length }
            (assignFields opts.fieldsObj
              (getAttributeFields link opts.attributePrefix))
            opts.hitFilter link).map (fun fields => ("event", fields)),
         threw := (cfo
            { transport := "beacon", eventCategory := "Outbound Link",
              eventAction := event.type, eventLabel := link.href,
              hitCallback := some s.closures.length }
            (assignFields opts.fieldsObj
              (getAttributeFields link opts.attributePrefix))
            opts.hitFilter link).isNone }) := by
  simp [handleLinkInteractions, createHitCallback, setTimeout, h1, h2, h3, h4]

/-- Helper: closed form of the handler when tracked but the wait branch is
not engaged (the engagement boolean of line 101 evaluates to false). -/
theorem handle_of_no_wait {env : Env} {opts : Opts} {cfo : ComposeFn} {s : Sys}
    {event : DomEvent} {link : Link}
    (h1 : opts.shouldTrack link env.parseUrl = true)
    (hw : ((!env.sendBeacon && opts.fallback.isSome)
        && (opts.fallback == some "wait")
        && (computedTarget event link).isNone) = false) :
    handleLinkInteractions env opts cfo s event link =
      (s,
       { preventedDefault := false,
         linkTarget :=
           if (!env.sendBeacon && opts.fallback.isSome)
               && (opts.fallback == some "_blank") then "_blank"
           else link.target,
         hitCallbackAttached := none, timerDelay := none,
         sent := (cfo
            { transport := "beacon", eventCategory := "Outbound Link",
              eventAction := event.type, eventLabel := link.href,
              hitCallback := none }
            (assignFields opts.fieldsObj
              (getAttributeFields link opts.attributePrefix))
            opts.hitFilter link).map (fun fields => ("event", fields)),
         threw := (cfo
            { transport := "beacon", eventCategory := "Outbound Link",
              eventAction := event.type, eventLabel := link.href,
              hitCallback := none }
            (assignFields opts.fieldsObj
              (getAttributeFields link opts.attributePrefix))
            opts.hitFilter link).isNone }) := by
  simp only [handleLinkInteractions, h1, if_true]
  simp [hw]

/-- C4.  A click with ctrl, shift or meta held, or a middle-button click
(`which = 2`), forces the computed navigation target to `_blank`, so the wait
fallback branch is never engaged for that interaction: no preventDefault, no
hit callback, no timer, and the runtime state is untouched. -/
theorem modifier_click_no_wait_fallback (env : Env) (opts : Opts)
    (cfo : ComposeFn) (s : Sys) (event : DomEvent) (link : Link)
    (hm : event.ctrlKey = true ∨ event.shiftKey = true ∨ event.metaKey = true
      ∨ event.which = 2) :
    computedTarget event link = some "_blank" ∧
    (handleEff env opts cfo s event link).preventedDefault = false ∧
    (handleEff env opts cfo s event link).hitCallbackAttached = none ∧
    (handleEff env opts cfo s event link).timerDelay = none ∧
    handleSt env opts cfo s event link = s := by
  have ht : computedTarget event link = some "_blank" := by
    unfold computedTarget
    rcases hm with h | h | h | h <;> simp [h]
  refine ⟨ht, ?_⟩
  by_cases h1 : opts.shouldTrack link env.parseUrl
  · have hw : ((!env.sendBeacon && opts.fallback.isSome)
        && (opts.fallback == some "wait")
        && (computedTarget event link).isNone) = false := by
      simp [ht]
    rw [handleEff, handleSt, handle_of_no_wait h1 hw]
    simp
  · rw [handleEff, handleSt,
      handle_of_not_tracked (Bool.not_eq_true _ ▸ h1)]
    simp [HandleResult.none]

/-- Witness for C4: a ctrl-click on an outbound link under the wait
fallback configuration. -/
theorem modifier_click_no_wait_fallback_witness :
    computedTarget ⟨"click", true, false, false, 1⟩ linkA = some "_blank" ∧
    (handleEff envEx optsWait cfoEx Sys.init
      ⟨"click", true, false, false, 1⟩ linkA).preventedDefault = false ∧
    (handleEff envEx optsWait cfoEx Sys.init
      ⟨"click", true, false, false, 1⟩ linkA).hitCallbackAttached = none ∧
    (handleEff envEx optsWait cfoEx Sys.init
      ⟨"click", true, false, false, 1⟩ linkA).timerDelay = none ∧
    handleSt envEx optsWait cfoEx Sys.init
      ⟨"click", true, false, false, 1⟩ linkA = Sys.init :=
  modifier_click_no_wait_fallback envEx optsWait cfoEx Sys.init
    ⟨"click", true, false, false, 1⟩ linkA (Or.inl rfl)

/-- C1.  The three wait-fallback actions (preventDefault, one-shot hit
callback attached to the outgoing fields, fallback timer) all occur exactly
when the interaction is tracked, `navigator.sendBeacon` is unavailable, the
configured fallback is `"wait"`, and no navigation target was computed; under
any other combination none of them occurs and the runtime state is
untouched.  When engaged, the attached callback is the freshly allocated
closure and the started timer invokes that same closure after `fallbackWait`
milliseconds. -/
theorem wait_fallback_engagement (env : Env) (opts : Opts) (cfo : ComposeFn)
    (s : Sys) (event : DomEvent) (link : Link) :
    ((opts.shouldTrack link env.parseUrl = true ∧ env.sendBeacon = false ∧
        opts.fallback = some "wait" ∧ computedTarget event link = none) →
      (handleEff env opts cfo s event link).preventedDefault = true ∧
      (handleEff env opts cfo s event link).hitCallbackAttached
        = some s.closures.length ∧
      (handleEff env opts cfo s event link).timerDelay
        = some opts.fallbackWait ∧
      (handleSt env opts cfo s event link).closures
        = s.closures ++ [⟨link.href, false⟩] ∧
      (handleSt env opts cfo s event link).timers
        = s.timers
          ++ [⟨s.nextTimerId, s.now + opts.fallbackWait, s.closures.length⟩] ∧
      (handleSt env opts cfo s event link).fallbackTimeout
        = some s.nextTimerId) ∧
    (¬(opts.shouldTrack link env.parseUrl = true ∧ env.sendBeacon = false ∧
        opts.fallback = some "wait" ∧ computedTarget event link = none) →
      (handleEff env opts cfo s event link).preventedDefault = false ∧
      (handleEff env opts cfo s event link).hitCallbackAttached = none ∧
      (handleEff env opts cfo s event link).timerDelay = none ∧
      handleSt env opts cfo s event link = s) := by
  constructor
  · rintro ⟨h1, h2, h3, h4⟩
    rw [handleEff, handleSt, handle_of_wait h1 h2 h3 h4]
    simp
  · intro hn
    by_cases h1 : opts.shouldTrack link env.parseUrl
    · have hw : ((!env.sendBeacon && opts.fallback.isSome)
          && (opts.fallback == some "wait")
          && (computedTarget event link).isNone) = false := by
        by_cases h2 : env.sendBeacon
        · simp [h2]
        · by_cases h3 : opts.fallback = some "wait"
          · have h4 : computedTarget event link ≠ none := fun h4 =>
              hn ⟨h1, Bool.not_eq_true _ ▸ h2, h3, h4⟩
            cases hco : computedTarget event link with
            | none => exact absurd hco h4
            | some v => simp [hco]
          · have : (opts.fallback == some "wait") = false := by
              simpa using h3
            simp [this]
      rw [handleEff, handleSt, handle_of_no_wait h1 hw]
      simp
    · rw [handleEff, handleSt,
        handle_of_not_tracked (Bool.not_eq_true _ ▸ h1)]
      simp [HandleResult.none]

/-- Witness for C1: the positive direction at a concrete plain click on an
outbound link with the wait fallback configured and no beacon support. -/
theorem wait_fallback_engagement_witness :
    (handleEff envEx optsWait cfoEx Sys.init clickEv linkA).preventedDefault
      = true ∧
    (handleEff envEx optsWait cfoEx Sys.init clickEv linkA).hitCallbackAttached
      = some 0 ∧
    (handleEff envEx optsWait cfoEx Sys.init clickEv linkA).timerDelay
      = some 500 ∧
    (handleSt envEx optsWait cfoEx Sys.init clickEv linkA).closures
      = [⟨"http://a.com/1", false⟩] ∧
    (handleSt envEx optsWait cfoEx Sys.init clickEv linkA).timers
      = [⟨0, 500, 0⟩] ∧
    (handleSt envEx optsWait cfoEx Sys.init clickEv linkA).fallbackTimeout
      = some 0 :=
  (wait_fallback_engagement envEx optsWait cfoEx Sys.init clickEv linkA).1
    ⟨by decide, rfl, rfl, rfl⟩

/-- C5.  For a tracked interaction the handler performs exactly one
`tracker.send` call, with hit type `event` and the composition (by the
external `createFieldsObj`, subject to the configured hit filter and the link
as filter context) of the default fields — transport `beacon`, category
`Outbound Link`, action the DOM event's type, label the link's href, plus
whatever hit callback was attached — with the merge of the static `fieldsObj`
and the link's prefix-matched attribute fields. -/
theorem handleLinkInteractions_send_fields (env : Env) (opts : Opts)
    (cfo : ComposeFn) (s : Sys) (event : DomEvent) (link : Link)
    (h : opts.shouldTrack link env.parseUrl = true) :
    (handleEff env opts cfo s event link).sent =
      (cfo
        { transport := "beacon", eventCategory := "Outbound Link",
          eventAction := event.type, eventLabel := link.href,
          hitCallback := (handleEff env opts cfo s event link).hitCallbackAttached }
        (assignFields opts.fieldsObj
          (getAttributeFields link opts.attributePrefix))
        opts.hitFilter link).map (fun fields => ("event", fields)) := by
  simp only [handleEff, handleLinkInteractions, h, if_true]

/-- Witness for C5 at a concrete outbound click: one send with hit type
`event` and the composed fields. -/
theorem handleLinkInteractions_send_fields_witness :
    (handleEff envEx optsWait cfoEx Sys.init clickEv linkA).sent =
      (cfoEx
        { transport := "beacon", eventCategory := "Outbound Link",
          eventAction := "click", eventLabel := "http://a.com/1",
          hitCallback :=
            (handleEff envEx optsWait cfoEx Sys.init clickEv
              linkA).hitCallbackAttached }
        (assignFields optsWait.fieldsObj
          (getAttributeFields linkA optsWait.attributePrefix))
        optsWait.hitFilter linkA).map (fun fields => ("event", fields)) :=
  handleLinkInteractions_send_fields envEx optsWait cfoEx Sys.init clickEv
    linkA (by decide)

/-- C9.  `remove()` on an instance built by a supported construction
succeeds, detaches the delegated listener of every configured event name, and
subsequent dispatched interactions on matching links reach no handler: no
analytics event is sent and no side effect occurs. -/
theorem remove_stops_tracking (events : List String) (sel : String)
    (env : Env) (opts : Opts) (cfo : ComposeFn) (s : Sys) (event : DomEvent)
    (link : Link) :
    ∃ inst', (outboundLinkTrackerNew true events sel).remove
        = Except.ok inst' ∧
      (∀ e, delegateActive inst' e = false) ∧
      dispatch inst' env opts cfo s event link = (s, HandleResult.none link) := by
  have hall : ∀ e, delegateActive
      ⟨some ⟨events, sel,
        (mkDelegates events).map (fun d : Delegate => { d with destroyed := true })⟩⟩
      e = false := by
    intro e
    simp [delegateActive, mkDelegates, List.any_map, Function.comp]
  refine ⟨⟨some ⟨events, sel,
    (mkDelegates events).map (fun d : Delegate => { d with destroyed := true })⟩⟩,
    rfl, hall, ?_⟩
  simp [dispatch, hall event.type]

/-- C6, counterexample.  The source predicate accepts any protocol whose
first four characters are `http`: a parsed protocol `httpx:` with a differing
hostname is tracked by the source but its scheme is neither http nor https,
so the claimed equivalence with the spec's predicate fails at this input. -/
theorem shouldTrackOutboundLink_not_iff_spec :
    shouldTrackOutboundLink ⟨"httpx://other.example/x", "", []⟩
      (fun _ => ⟨"other.example", "httpx:"⟩) "example.com" = true ∧
    shouldTrackOutboundLinkSpec ⟨"httpx://other.example/x", "", []⟩
      (fun _ => ⟨"other.example", "httpx:"⟩) "example.com" = false := by
  exact ⟨rfl, rfl⟩

/-- C6, amended.  The default outbound predicate returns true iff the link's
resolved hostname differs from the current page's hostname and the first four
characters of the resolved protocol are `http` (which admits `http:`,
`https:`, and any other protocol beginning with those characters); in
particular it returns false whenever the hostname equals the page's
hostname. -/
theorem shouldTrackOutboundLink_characterization (link : Link)
    (parseUrl : String → ParsedUrl) (loc : String) :
    (shouldTrackOutboundLink link parseUrl loc = true ↔
      ((parseUrl link.href).hostname ≠ loc ∧
        (parseUrl link.href).protocol.take 4 = "http")) ∧
    ((parseUrl link.href).hostname = loc →
      shouldTrackOutboundLink link parseUrl loc = false) := by
  unfold shouldTrackOutboundLink
  constructor
  · simp [Bool.and_eq_true, bne_iff_ne, beq_iff_eq]
  · intro h
    simp [h]

/-- Witness for the amended C6 theorem at a concrete same-hostname link. -/
theorem shouldTrackOutboundLink_characterization_witness :
    shouldTrackOutboundLink ⟨"https://example.com/page", "", []⟩
      (fun _ => ⟨"example.com", "https:"⟩) "example.com" = false :=
  (shouldTrackOutboundLink_characterization ⟨"https://example.com/page", "", []⟩
    (fun _ => ⟨"example.com", "https:"⟩) "example.com").2 rfl

/-- C7.  When the configured `shouldTrack` predicate returns false the
handler performs no side effects: the runtime state is unchanged and the
effect record shows no send, no target mutation, no preventDefault, no
callback and no timer. -/
theorem handleLinkInteractions_not_tracked (env : Env) (opts : Opts)
    (cfo : ComposeFn) (s : Sys) (event : DomEvent) (link : Link)
    (h : opts.shouldTrack link env.parseUrl = false) :
    handleLinkInteractions env opts cfo s event link
      = (s, HandleResult.none link) := by
  simp [handleLinkInteractions, h]

/-- Witness for C7: a click on a link with the current page's hostname. -/
theorem handleLinkInteractions_not_tracked_witness :
    handleLinkInteractions envEx optsWait cfoEx Sys.init clickEv linkSame
      = (Sys.init, HandleResult.none linkSame) :=
  handleLinkInteractions_not_tracked envEx optsWait cfoEx Sys.init clickEv
    linkSame (by decide)

/-- C10.  When `window.addEventListener` is absent the constructor returns
before assigning any instance field, and a subsequent `remove()` call
dereferences the undefined `delegates` field and throws a TypeError instead
of being a no-op. -/
theorem unsupported_construction_remove_throws (events : List String)
    (linkSelector : String) :
    (outboundLinkTrackerNew false events linkSelector).fields = none ∧
    (outboundLinkTrackerNew false events linkSelector).remove
      = Except.error
          (JsError.typeError "Cannot convert undefined or null to object") := by
  exact ⟨rfl, rfl⟩

/-- Helper: invoking a callback whose guard is already set leaves the state
unchanged. -/
theorem invokeCallback_of_hasRun {s : Sys} {i : Nat} {cb : Callback}
    (h : s.closures[i]? = some cb) (hr : cb.hasRun = true) :
    invokeCallback s i = s := by
  simp [invokeCallback, h, hr]

/-- Helper: the first invocation of a fresh callback clears the timer whose
id is the current instance `fallbackTimeout`, sets the guard, and appends the
captured link to the navigations. -/
theorem invokeCallback_of_fresh {s : Sys} {i : Nat} {cb : Callback}
    (h : s.closures[i]? = some cb) (hr : cb.hasRun = false) :
    invokeCallback s i =
      { s with
          timers := s.timers.filter (fun t => some t.id ≠ s.fallbackTimeout),
          closures := s.closures.set i { cb with hasRun := true },
          navigations := s.navigations ++ [cb.link] } := by
  simp [invokeCallback, clearTimeout, h, hr]

/-- Helper: invoking the same callback again has no further effect. -/
theorem invokeCallback_idem (s : Sys) (i : Nat) :
    invokeCallback (invokeCallback s i) i = invokeCallback s i := by
  cases h : s.closures[i]? with
  | none => simp [invokeCallback, h]
  | some cb =>
    cases hr : cb.hasRun with
    | true => simp [invokeCallback, h, hr]
    | false =>
      obtain ⟨hi, -⟩ := List.getElem?_eq_some_iff.mp h
      rw [invokeCallback_of_fresh h hr]
      exact invokeCallback_of_hasRun (List.getElem?_set_self hi) rfl

/-- Helper: invoking the freshly appended callback navigates to its captured
link. -/
theorem invokeCallback_concat_navigations (s : Sys) (l : List Callback)
    (href : String) (hc : s.closures = l ++ [⟨href, false⟩]) :
    (invokeCallback s l.length).navigations = s.navigations ++ [href] := by
  have hget : s.closures[l.length]? = some ⟨href, false⟩ := by
    rw [hc]
    exact List.getElem?_concat_length l ⟨href, false⟩
  rw [invokeCallback_of_fresh hget rfl]

/-- Helper: firing the fallback timer created by a wait-engaged handler call
performs the deferred navigation to the link's href, provided the starting
state had no pending timer colliding with the fresh timer id. -/
theorem fireTimer_of_handle_wait {env : Env} {opts : Opts} {cfo : ComposeFn}
    {s : Sys} {event : DomEvent} {link : Link}
    (h1 : opts.shouldTrack link env.parseUrl = true)
    (h2 : env.sendBeacon = false)
    (h3 : opts.fallback = some "wait")
    (h4 : computedTarget event link = none)
    (hfresh : ∀ t ∈ s.timers, t.id ≠ s.nextTimerId) :
    (fireTimer (handleSt env opts cfo s event link) s.nextTimerId).navigations
      = s.navigations ++ [link.href] := by
  rw [handleSt, handle_of_wait h1 h2 h3 h4]
  have hfind : (s.timers
      ++ [(⟨s.nextTimerId, s.now + opts.fallbackWait, s.closures.length⟩ : Timer)]).find?
        (fun t => t.id == s.nextTimerId)
      = some ⟨s.nextTimerId, s.now + opts.fallbackWait, s.closures.length⟩ := by
    rw [List.find?_append]
    have hnone : s.timers.find? (fun t => t.id == s.nextTimerId) = none := by
      rw [List.find?_eq_none]
      intro t ht
      simp [hfresh t ht]
    simp [hnone]
  simp only [fireTimer, hfind]
  exact invokeCallback_concat_navigations _ s.closures link.href rfl

/-- C2.  A hit-completion callback produced by `createHitCallback` is
one-shot: any sequence of one or more invocations has the same result as a
single invocation; the first invocation cancels the timer recorded in the
instance `fallbackTimeout` field, marks the closure as run, and performs
exactly one deferred navigation to the captured link's destination. -/
theorem createHitCallback_one_shot (s : Sys) (href : String) (k : Nat)
    (hk : 1 ≤ k) :
    (fun t => invokeCallback t (createHitCallback s href).2)^[k]
        (createHitCallback s href).1
      = invokeCallback (createHitCallback s href).1
          (createHitCallback s href).2 ∧
    (invokeCallback (createHitCallback s href).1
        (createHitCallback s href).2).navigations
      = s.navigations ++ [href] ∧
    (invokeCallback (createHitCallback s href).1
        (createHitCallback s href).2).timers
      = s.timers.filter (fun t => some t.id ≠ s.fallbackTimeout) ∧
    (invokeCallback (createHitCallback s href).1
        (createHitCallback s href).2).closures
      = s.closures ++ [⟨href, true⟩] := by
  have hget : (createHitCallback s href).1.closures[(createHitCallback s href).2]?
      = some ⟨href, false⟩ := by
    simp [createHitCallback, List.getElem?_concat_length]
  have hfresh := invokeCallback_of_fresh hget rfl
  refine ⟨?_, ?_, ?_, ?_⟩
  · obtain ⟨m, rfl⟩ : ∃ m, k = m + 1 :=
      ⟨k - 1, (Nat.succ_pred_eq_of_pos hk).symm⟩
    rw [Function.iterate_succ_apply]
    exact Function.iterate_fixed (invokeCallback_idem _ _) m
  · rw [hfresh]
    simp [createHitCallback]
  · rw [hfresh]
    simp [createHitCallback]
  · rw [hfresh]
    simp [createHitCallback]

/-- Witness for C2: two invocations of a concrete callback allocated while a
fallback timer is pending navigate exactly once and cancel the timer. -/
theorem createHitCallback_one_shot_witness :
    (fun t => invokeCallback t
        (createHitCallback ⟨some 0, [], [⟨0, 500, 0⟩], 1, [], 0⟩ "http://a.com/1").2)^[2]
        (createHitCallback ⟨some 0, [], [⟨0, 500, 0⟩], 1, [], 0⟩ "http://a.com/1").1
      = invokeCallback
          (createHitCallback ⟨some 0, [], [⟨0, 500, 0⟩], 1, [], 0⟩ "http://a.com/1").1
          (createHitCallback ⟨some 0, [], [⟨0, 500, 0⟩], 1, [], 0⟩ "http://a.com/1").2 ∧
    (invokeCallback
        (createHitCallback ⟨some 0, [], [⟨0, 500, 0⟩], 1, [], 0⟩ "http://a.com/1").1
        (createHitCallback ⟨some 0, [], [⟨0, 500, 0⟩], 1, [], 0⟩ "http://a.com/1").2).navigations
      = ["http://a.com/1"] ∧
    (invokeCallback
        (createHitCallback ⟨some 0, [], [⟨0, 500, 0⟩], 1, [], 0⟩ "http://a.com/1").1
        (createHitCallback ⟨some 0, [], [⟨0, 500, 0⟩], 1, [], 0⟩ "http://a.com/1").2).timers
      = [] ∧
    (invokeCallback
        (createHitCallback ⟨some 0, [], [⟨0, 500, 0⟩], 1, [], 0⟩ "http://a.com/1").1
        (createHitCallback ⟨some 0, [], [⟨0, 500, 0⟩], 1, [], 0⟩ "http://a.com/1").2).closures
      = [⟨"http://a.com/1", true⟩] :=
  createHitCallback_one_shot ⟨some 0, [], [⟨0, 500, 0⟩], 1, [], 0⟩
    "http://a.com/1" 2 (by decide)

/-- C3, counterexample.  Two qualifying clicks under the wait fallback, the
second while the first click's timer is still pending: when the first timer
fires, its callback clears the overwritten instance timer handle — which now
names the second click's timer — so afterwards no timer is pending at all,
the second click's callback has never run, and only the first navigation ever
happened.  With no send completion forthcoming, the second click's suppressed
navigation is permanently blocked. -/
theorem overlapping_clicks_block_navigation :
    (handleEff envEx optsWait cfoEx { c3Run1 with now := 1 } clickEv
        linkB).preventedDefault = true ∧
    c3Final.timers = [] ∧
    c3Final.closures
      = [⟨"http://a.com/1", true⟩, ⟨"http://b.com/2", false⟩] ∧
    c3Final.navigations = ["http://a.com/1"] ∧
    fireTimer c3Final 0 = c3Final ∧
    fireTimer c3Final 1 = c3Final := by
  decide

/-- C3, amended.  A wait-engaged interaction schedules exactly one fallback
timer, due `fallbackWait` milliseconds after the interaction, overwriting the
instance timer-handle field with the new timer's id; as long as that timer is
still pending when it fires — in particular for an interaction not raced by
an earlier click's callback — firing it performs the deferred navigation even
if the analytics send never completes.  (When a second qualifying click
overlaps a pending fallback timer, the earlier callback's invocation clears
the overwritten handle, i.e. the new timer, and the later click's navigation
is no longer guaranteed.) -/
theorem wait_fallback_timer_navigation (env : Env) (opts : Opts)
    (cfo : ComposeFn) (s : Sys) (event : DomEvent) (link : Link)
    (h1 : opts.shouldTrack link env.parseUrl = true)
    (h2 : env.sendBeacon = false)
    (h3 : opts.fallback = some "wait")
    (h4 : computedTarget event link = none)
    (hfresh : ∀ t ∈ s.timers, t.id ≠ s.nextTimerId) :
    (handleEff env opts cfo s event link).preventedDefault = true ∧
    (handleSt env opts cfo s event link).timers
      = s.timers
        ++ [⟨s.nextTimerId, s.now + opts.fallbackWait, s.closures.length⟩] ∧
    (handleSt env opts cfo s event link).fallbackTimeout
      = some s.nextTimerId ∧
    (fireTimer (handleSt env opts cfo s event link) s.nextTimerId).navigations
      = s.navigations ++ [link.href] := by
  refine ⟨?_, ?_, ?_, fireTimer_of_handle_wait h1 h2 h3 h4 hfresh⟩ <;>
    simp [handleEff, handleSt, handle_of_wait h1 h2 h3 h4]

/-- Witness for the amended C3 theorem: a single qualifying click from the
initial state navigates to the link when its timer fires. -/
theorem wait_fallback_timer_navigation_witness :
    (handleEff envEx optsWait cfoEx Sys.init clickEv linkA).preventedDefault
      = true ∧
    (handleSt envEx optsWait cfoEx Sys.init clickEv linkA).timers
      = [⟨0, 500, 0⟩] ∧
    (handleSt envEx optsWait cfoEx Sys.init clickEv linkA).fallbackTimeout
      = some 0 ∧
    (fireTimer (handleSt envEx optsWait cfoEx Sys.init clickEv linkA)
        0).navigations = ["http://a.com/1"] :=
  wait_fallback_timer_navigation envEx optsWait cfoEx Sys.init clickEv linkA
    (by decide) rfl rfl rfl (by decide)

/-- C8.  When the wait fallback is engaged and the field-composition step
throws or vetoes, the failure propagates to the caller (the `threw` flag) and
no send happens; but the fallback timer was started before the send, so
firing it still performs the deferred navigation after `fallbackWait`
milliseconds. -/
theorem compose_failure_not_masked (env : Env) (opts : Opts)
    (cfo : ComposeFn) (s : Sys) (event : DomEvent) (link : Link)
    (h1 : opts.shouldTrack link env.parseUrl = true)
    (h2 : env.sendBeacon = false)
    (h3 : opts.fallback = some "wait")
    (h4 : computedTarget event link = none)
    (hthrow : ∀ d u hf l, cfo d u hf l = none)
    (hfresh : ∀ t ∈ s.timers, t.id ≠ s.nextTimerId) :
    (handleEff env opts cfo s event link).threw = true ∧
    (handleEff env opts cfo s event link).sent = none ∧
    (handleEff env opts cfo s event link).timerDelay
      = some opts.fallbackWait ∧
    (fireTimer (handleSt env opts cfo s event link) s.nextTimerId).navigations
      = s.navigations ++ [link.href] := by
  refine ⟨?_, ?_, ?_, fireTimer_of_handle_wait h1 h2 h3 h4 hfresh⟩ <;>
    rw [handleEff, handle_of_wait h1 h2 h3 h4] <;> simp [hthrow]

/-- Witness for C8: a concrete wait-engaged click with an always-throwing
composition still navigates when the timer fires. -/
theorem compose_failure_not_masked_witness :
    (handleEff envEx optsWait cfoNone Sys.init clickEv linkA).threw = true ∧
    (handleEff envEx optsWait cfoNone Sys.init clickEv linkA).sent = none ∧
    (handleEff envEx optsWait cfoNone Sys.init clickEv linkA).timerDelay
      = some 500 ∧
    (fireTimer (handleSt envEx optsWait cfoNone Sys.init clickEv linkA)
        0).navigations = ["http://a.com/1"] :=
  compose_failure_not_masked envEx optsWait cfoNone Sys.init clickEv linkA
    (by decide) rfl rfl rfl (fun _ _ _ _ => rfl) (by decide)

end OutboundLink
